import Mathlib

/-!
Shallow embedding of the matterbridge thread/IPC package
(`packages/thread/src/worker.ts`, the three worker scripts
`workerCheckUpdates.ts`, `workerSystemCheck.ts`, `workerGlobalPrefix.ts`,
and the BroadcastServer interface they consume).

Effects (postMessage calls, local logger writes, bus operations) are
modelled as explicit event traces; a computation that can throw returns
`List Event × Option JsError` — the events performed before the throw,
and the thrown error if any.
-/

namespace Matterbridge

/-- Log levels used by node-ansi-logger in this package. -/
inductive LogLevel
  | debug
  | info
  | notice
  | warn
  | error
deriving DecidableEq, Repr

/-- Control-plane message posted over the supervisor-worker link
(`ParentPortMessage` in `@matterbridge/types`): a closed union of
`init`, `log` and `exit` shapes. -/
inductive ParentPortMessage
  | init (threadId : Nat) (threadName : String) (success : Bool)
  | log (threadId : Nat) (threadName : String) (logName : Option String) (logLevel : LogLevel) (message : String)
  | exit (threadId : Nat) (threadName : String) (success : Bool)
deriving DecidableEq, Repr

/-- Data-plane envelope carried on the broadcast channel (`WorkerMessage`).
Payloads (`params`, `result`) are modelled as opaque strings. -/
structure WorkerMessage where
  type : String
  src : String
  dst : String
  id : Option Nat := none
  params : Option String := none
  result : Option String := none
  success : Option Bool := none
deriving DecidableEq, Repr

/-- A JavaScript runtime error: either an explicit `throw new Error(...)`
or a TypeError raised by a property access on `undefined`/`null`. -/
inductive JsError
  | error (message : String)
  | typeError (message : String)
deriving DecidableEq, Repr

/-- Observable effects of the thread package. -/
inductive Event
  | post (m : ParentPortMessage)
  | localLog (logName : String) (level : LogLevel) (message : String)
  | debugLog (message : String)
  | publish (m : WorkerMessage)
  | busOpen
  | busClose
  | workerInfo
deriving DecidableEq, Repr

/-- Ambient `node:worker_threads` state seen by `worker.ts`.
`workerData` holds the `threadName` the supervisor passed at spawn time;
it is `none` on the main thread (Node leaves `workerData` undefined
there), and `some` in every worker created by `createESMWorker`, which
always sets `threadName`. -/
structure WorkerCtx where
  isMainThread : Bool
  parentPortPresent : Bool
  threadId : Nat
  workerData : Option String
  debug : Bool
  verbose : Bool
deriving DecidableEq, Repr

/-- A throwing computation: events performed so far plus the error, if any. -/
abbrev Effects := List Event × Option JsError

/-- Debug line of `parentPost`. -/
def dbgSentText (tn : String) (tid : Nat) : String :=
  "Worker " ++ tn ++ ":" ++ toString tid ++ " sent message to parent"

/-- Debug line of `parentLog`. -/
def dbgSentLogText (tn : String) (tid : Nat) : String :=
  "Worker " ++ tn ++ ":" ++ toString tid ++ " sent log to parent"

/-- `parentPost` (worker.ts:43-47).  When `parentPort` is missing it throws;
note the error message interpolates `workerData.threadName`, so on the main
thread — where `workerData` is undefined — evaluating the template literal
itself raises a TypeError before the explicit Error is constructed.
When the link exists the message is posted unchanged, followed (when the
debug flag is set) by a module-logger debug line that again reads
`workerData.threadName`. -/
def parentPost (ctx : WorkerCtx) (message : ParentPortMessage) : Effects :=
  if ctx.parentPortPresent then
    match ctx.workerData with
    | some tn =>
        ([Event.post message] ++
          (if ctx.debug then [Event.debugLog (dbgSentText tn ctx.threadId)] else []),
          none)
    | none =>
        if ctx.debug then
          ([Event.post message], some (JsError.typeError "Cannot read properties of undefined (reading threadName)"))
        else
          ([Event.post message], none)
  else
    match ctx.workerData with
    | some tn => ([], some (JsError.error ("WorkerServer " ++ tn ++ ": parentPort is not available.")))
    | none => ([], some (JsError.typeError "Cannot read properties of undefined (reading threadName)"))

/-- `parentLog` (worker.ts:56-61).  Throws the same explicit error as
`parentPost` when `parentPort` is missing (with the same TypeError hazard on
the main thread); otherwise constructs the `log` control message — which
reads `workerData.threadName` — and posts it. -/
def parentLog (ctx : WorkerCtx) (logName : Option String) (logLevel : LogLevel) (message : String) : Effects :=
  if ctx.parentPortPresent then
    match ctx.workerData with
    | some tn =>
        ([Event.post (ParentPortMessage.log ctx.threadId tn logName logLevel message)] ++
          (if ctx.debug then [Event.debugLog (dbgSentLogText tn ctx.threadId)] else []),
          none)
    | none => ([], some (JsError.typeError "Cannot read properties of undefined (reading threadName)"))
  else
    match ctx.workerData with
    | some tn => ([], some (JsError.error ("WorkerServer " ++ tn ++ ": parentPort is not available.")))
    | none => ([], some (JsError.typeError "Cannot read properties of undefined (reading threadName)"))

/-- `threadLogger` (worker.ts:71-74): always writes to a synchronously
created local logger tagged with `threadName`, and forwards to the parent
via `parentLog` only when not on the main thread and a link is present. -/
def threadLogger (ctx : WorkerCtx) (threadName : String) (level : LogLevel) (message : String) : Effects :=
  let localWrite := [Event.localLog threadName level message]
  if !ctx.isMainThread && ctx.parentPortPresent then
    let relayed := parentLog ctx (some threadName) level message
    (localWrite ++ relayed.fst, relayed.snd)
  else
    (localWrite, none)

/-- Is this the explicit `Error` (as opposed to a TypeError)? -/
def isExplicitError : Option JsError → Bool
  | some (JsError.error _) => true
  | _ => false

/-! ## createESMWorker (worker.ts:96-118) -/

/-- JS object lookup on an assignment list: the last assignment of a key wins,
matching object-literal/spread semantics. -/
def recGet (r : List (String × String)) (k : String) : Option String :=
  (r.reverse.find? (fun p => p.fst == k)).map (fun p => p.snd)

/-- The supervisor process state `createESMWorker` reads its defaults from:
`process.argv` (interpreter, script path, then the CLI flags) and `process.env`. -/
structure ProcessState where
  argv : List String
  env : List (String × String)
deriving DecidableEq, Repr

/-- The `WorkerOptions` object handed to `new Worker(...)`. -/
structure WorkerOptions where
  workerData : List (String × String)
  type : String
  name : String
  argv : List String
  env : List (String × String)
  execArgv : Option (List String)
  stdout : Bool
  stderr : Bool
deriving DecidableEq, Repr

/-- `createESMWorker` (worker.ts:96-118): builds the worker options.
`{ ...workerData, threadName: name }` is the spread with `threadName`
assigned last; `argv ?? process.argv.slice(2)` and `env ?? process.env`
are the nullish-coalescing defaults; `execArgv` passes through;
`stdout`/`stderr` are both set to `pipedOutput`. -/
def createESMWorker (proc : ProcessState) (name : String)
    (workerData : List (String × String)) (argv : Option (List String))
    (env : Option (List (String × String))) (execArgv : Option (List String))
    (pipedOutput : Bool) : WorkerOptions :=
  { workerData := workerData ++ [("threadName", name)]
    type := "module"
    name := name
    argv := argv.getD (proc.argv.drop 2)
    env := env.getD proc.env
    execArgv := execArgv
    stdout := pipedOutput
    stderr := pipedOutput }

/-! ## Broadcast bus: fetch and respond

`broadcastServer.ts` itself is not among the provided sources (only its
tests and call sites are), so `runFetch` and `respond` below are modelled
from the spec (§4.1). -/

/-- The per-call temporary listeners currently registered on a bus,
keyed by the correlation id each one waits for. -/
structure BusState where
  listeners : List Nat
deriving DecidableEq, Repr

/-- Outcome of a `fetch` call: resolve with a response envelope, or reject
with the timeout error. -/
inductive FetchOutcome
  | resolved (e : WorkerMessage)
  | timedOut
deriving DecidableEq, Repr

/-- Modelled from the spec: a response envelope matches a fetch exactly when
its correlation `id` equals the stamped id and it carries `result`. -/
def fetchMatches (fid : Nat) (e : WorkerMessage) : Bool :=
  e.id == some fid && e.result.isSome

/-- Modelled from the spec: the race between the per-call subscription and
the timer.  `events` are the envelopes observed on the channel in arrival
order, each tagged with its arrival time in ms; an arrival at or past
`timeoutMs` means the timer fired first. -/
def fetchScan (fid timeoutMs : Nat) : List (Nat × WorkerMessage) → FetchOutcome
  | [] => FetchOutcome.timedOut
  | (t, e) :: rest =>
    if timeoutMs ≤ t then FetchOutcome.timedOut
    else if fetchMatches fid e then FetchOutcome.resolved e
    else fetchScan fid timeoutMs rest

/-- Modelled from the spec: `BroadcastServer.fetch` (broadcastServer.ts is
not under the provided sources).  Stamps the fresh correlation id `fid`
onto the request, registers a temporary per-call listener, races the
observed envelopes against the timer, and unregisters the listener in both
outcomes.  Returns (published request, outcome, final listener set). -/
def runFetch (s : BusState) (fid timeoutMs : Nat) (req : WorkerMessage)
    (events : List (Nat × WorkerMessage)) : WorkerMessage × FetchOutcome × BusState :=
  let published := { req with id := some fid }
  let registered : BusState := ⟨fid :: s.listeners⟩
  let outcome := fetchScan fid timeoutMs events
  (published, outcome, ⟨registered.listeners.erase fid⟩)

/-- The listeners of `s` that an incoming envelope would wake up:
those whose correlation id matches the envelope's `id`. -/
def notifies (s : BusState) (e : WorkerMessage) : List Nat :=
  s.listeners.filter (fun l => e.id == some l)

/-- `e` is the first envelope in `events` that arrives before the timeout
and matches the fetch with id `fid`. -/
def FirstMatch (fid timeoutMs : Nat) (events : List (Nat × WorkerMessage)) (e : WorkerMessage) : Prop :=
  ∃ pre t rest, events = pre ++ (t, e) :: rest ∧ t < timeoutMs ∧
    ∀ q ∈ pre, q.fst < timeoutMs ∧ fetchMatches fid q.snd = false

/-- Modelled from the spec: `BroadcastServer.respond` (broadcastServer.ts is
not under the provided sources): publishes an envelope copying `type` and
`id` from the request, with `src`/`dst` swapped, attaching `result` (and
`success` when the responder provides it). -/
def respond (req : WorkerMessage) (result : String) (success : Option Bool) : WorkerMessage :=
  { type := req.type
    src := req.dst
    dst := req.src
    id := req.id
    params := none
    result := some result
    success := success }

/-! ## Worker scripts

The three worker scripts (`workerCheckUpdates.ts`, `workerSystemCheck.ts`,
`workerGlobalPrefix.ts`) share the same module-body shape: guarded init
post, broadcast-server creation, optional worker-info dump, a start log, a
try/catch task, `server.close()`, and a guarded exit post. -/

/-- Context of one script execution.  `threadName` is the value of
`workerData.threadName`; scripts dereference it only behind the
not-main-thread-and-port guard, and every worker this repository spawns
goes through `createESMWorker`, which always sets it. -/
structure ScriptCtx where
  isMainThread : Bool
  parentPortPresent : Bool
  threadId : Nat
  threadName : String
  debug : Bool
  verbose : Bool
deriving DecidableEq, Repr

/-- The ambient worker_threads view of a script context.  On main-thread
runs the `workerData` value is never read (all reads sit behind the
worker guard), so representing it as present is observationally faithful. -/
def ScriptCtx.toWorkerCtx (c : ScriptCtx) : WorkerCtx :=
  { isMainThread := c.isMainThread
    parentPortPresent := c.parentPortPresent
    threadId := c.threadId
    workerData := some c.threadName
    debug := c.debug
    verbose := c.verbose }

/-- `!isMainThread && parentPort`: the guard on the init and exit blocks. -/
def workerGuard (c : ScriptCtx) : Bool :=
  !c.isMainThread && c.parentPortPresent

/-- The debug-only parent-log line of the init block. -/
def initText (c : ScriptCtx) : String :=
  "Worker " ++ c.threadName ++ ":" ++ toString c.threadId ++ " initialized."

/-- The debug-only parent-log line of the exit block. -/
def exitText (c : ScriptCtx) (ok : Bool) : String :=
  "Worker " ++ c.threadName ++ ":" ++ toString c.threadId ++ " exiting with success: " ++ toString ok ++ "."

/-- Sequencing of throwing computations: a throw skips the continuation. -/
def seqM (a b : Effects) : Effects :=
  match a.snd with
  | some e => (a.fst, some e)
  | none => (a.fst ++ b.fst, b.snd)

/-- The empty computation. -/
def retE : Effects := ([], none)

/-- Emit events without a possibility of throwing. -/
def emitE (es : List Event) : Effects := (es, none)

/-- Run `e` only when `b` holds. -/
def condE (b : Bool) (e : Effects) : Effects := if b then e else retE

/-- Sequence a list of computations. -/
def seqAll : List Effects → Effects
  | [] => retE
  | e :: rest => seqM e (seqAll rest)

/-- The guarded init block shared by the scripts (e.g.
workerCheckUpdates.ts:39-42): post `init` with `success: true`, plus a
debug-only parent log. -/
def scriptInitSec (c : ScriptCtx) (nm : String) : Effects :=
  if workerGuard c then
    seqM (parentPost c.toWorkerCtx (ParentPortMessage.init c.threadId c.threadName true))
      (if c.debug then
        parentLog c.toWorkerCtx (some nm) LogLevel.info (initText c)
      else retE)
  else retE

/-- The guarded exit block shared by the scripts (e.g.
workerCheckUpdates.ts:72-75): post `exit` carrying the final success flag,
plus a debug-only parent log. -/
def scriptExitSec (c : ScriptCtx) (nm : String) (ok : Bool) : Effects :=
  if workerGuard c then
    seqM (parentPost c.toWorkerCtx (ParentPortMessage.exit c.threadId c.threadName ok))
      (if c.debug then
        parentLog c.toWorkerCtx (some nm) LogLevel.info (exitText c ok)
      else retE)
  else retE

/-- The common module-body shape of the three worker scripts. -/
def workerScriptRun (c : ScriptCtx) (nm startMsg : String) (task : Effects) (ok : Bool) : Effects :=
  seqM (scriptInitSec c nm)
    (seqM (emitE [Event.busOpen])
      (seqM (if c.verbose then emitE [Event.workerInfo] else retE)
        (seqM (threadLogger c.toWorkerCtx nm LogLevel.info startMsg)
          (seqM task
            (seqM (emitE [Event.busClose]) (scriptExitSec c nm ok))))))

/-- `inspectError` (in `@matterbridge/utils`, not under the provided
sources) flattens a thrown error into a human-readable message; only the
produced string matters here. -/
def inspectErrorMsg (what err : String) : String := what ++ ": " ++ err

/-- Did the fallible step succeed? -/
def exceptOk {α β : Type} : Except α β → Bool
  | Except.ok _ => true
  | Except.error _ => false

/-- The two fallible steps of workerCheckUpdates.ts: the shared-state fetch
and `checkUpdates`; each either returns or throws with some message. -/
structure CuTask where
  fetchShared : Except String Unit
  checkUpdates : Except String Unit

/-- The try-block of workerCheckUpdates.ts:58-66: fetch, then checkUpdates. -/
def cuResult (t : CuTask) : Except String Unit :=
  match t.fetchShared with
  | Except.ok _ => t.checkUpdates
  | Except.error e => Except.error e

def cuName : String := "MatterbridgeCheckUpdates"

/-- Task section of workerCheckUpdates.ts: success log on the happy path,
one error-level log of the inspected error in the catch. -/
def cuTaskSec (c : ScriptCtx) (t : CuTask) : Effects :=
  match cuResult t with
  | Except.ok _ => threadLogger c.toWorkerCtx cuName LogLevel.info "Check updates succeeded"
  | Except.error e => threadLogger c.toWorkerCtx cuName LogLevel.error (inspectErrorMsg "Failed to check updates" e)

/-- Module body of workerCheckUpdates.ts. -/
def workerCheckUpdatesRun (c : ScriptCtx) (t : CuTask) : Effects :=
  workerScriptRun c cuName "Starting check updates..." (cuTaskSec c t) (exceptOk (cuResult t))

def wgpName : String := "MatterbridgeGlobalPrefix"

/-- Task section of workerGlobalPrefix.ts:257-265: `getGlobalNodeModules`
either yields the global node_modules path — then the script publishes a
fire-and-forget notification and logs it — or throws into the catch. -/
def wgpTaskSec (c : ScriptCtx) (t : Except String String) : Effects :=
  match t with
  | Except.ok pfx =>
      seqM (emitE [Event.publish
              { type := "matterbridge_global_prefix", src := "matterbridge", dst := "matterbridge", params := some pfx }])
        (threadLogger c.toWorkerCtx wgpName LogLevel.info ("Global node_modules directory: " ++ pfx))
  | Except.error e =>
      threadLogger c.toWorkerCtx wgpName LogLevel.error (inspectErrorMsg "Failed to get global node modules" e)

/-- Module body of workerGlobalPrefix.ts. -/
def wgpRun (c : ScriptCtx) (t : Except String String) : Effects :=
  workerScriptRun c wgpName "Starting global prefix check..." (wgpTaskSec c t) (exceptOk t)

/-- One entry of `os.networkInterfaces()`: address family and internal flag
are all workerSystemCheck reads. -/
structure NetDetail where
  family : String
  internal : Bool
deriving DecidableEq, Repr

/-- One named interface; `excluded` is the (pre-evaluated) result of
`excludedInterfaceNamePattern.test(name)`, and `details` is the detail
list with `undefined` collapsing to `[]` (the `|| []` in the source). -/
structure NetInterface where
  name : String
  excluded : Bool
  details : List NetDetail
deriving DecidableEq, Repr

/-- Ambient state the workerSystemCheck try-block reads after its fetch
succeeds: NVM env markers, the parsed Node version, the fetched shared
config's `mdnsInterface` truthiness, and the network interfaces. -/
structure ScEnv where
  nvm : Bool
  versionMajor : Nat
  versionMinor : Nat
  versionPatch : Nat
  mdnsSet : Bool
  interfaces : List NetInterface
deriving DecidableEq, Repr

def scName : String := "MatterbridgeSystemCheck"

def scLog (c : ScriptCtx) (lv : LogLevel) (msg : String) : Effects :=
  threadLogger c.toWorkerCtx scName lv msg

/-- The flag loop of workerSystemCheck.ts:83-93: does any non-excluded
interface have a detail satisfying `p`? -/
def scFound (ifs : List NetInterface) (p : NetDetail → Bool) : Bool :=
  ifs.any (fun i => !i.excluded && i.details.any p)

def scVersionText (env : ScEnv) : String :=
  toString env.versionMajor ++ "." ++ toString env.versionMinor ++ "." ++ toString env.versionPatch

/-- The body of the workerSystemCheck try-block after a successful fetch
(workerSystemCheck.ts:62-100), in source order. -/
def scBody (c : ScriptCtx) (env : ScEnv) : Effects :=
  seqAll
    [ condE env.nvm (scLog c LogLevel.error "NVM is a development tool and is not supported in production. Please install node from https://github.com/nodesource/distributions.")
    , scLog c LogLevel.debug ("Node.js Version: " ++ scVersionText env)
    , condE (env.versionMajor == 20 && decide (env.versionMinor < 19)) (scLog c LogLevel.error "Node.js version < 20.19.0 is not supported. Please upgrade to Node.js LTS version (24.x).")
    , condE (env.versionMajor == 22 && decide (env.versionMinor < 13)) (scLog c LogLevel.error "Node.js version < 22.13.0 is not supported. Please upgrade to Node.js LTS version (24.x).")
    , condE (env.versionMajor == 21 || env.versionMajor == 23 || env.versionMajor == 25) (scLog c LogLevel.error "Node.js odd major versions are not supported. Please upgrade to Node.js LTS version (24.x).")
    , condE (env.versionMajor != 24) (scLog c LogLevel.notice ("You are running Node.js " ++ scVersionText env ++ ". Please consider upgrading to Node.js LTS version (24.x)."))
    , seqAll (env.interfaces.map (fun i =>
        condE (!env.mdnsSet && i.excluded)
          (scLog c LogLevel.warn ("Found network interface " ++ i.name ++ ". Please use --mdnsinterface parameter to specify the correct local interface for mDNS."))))
    , condE (!scFound env.interfaces (fun d => d.internal)) (scLog c LogLevel.error "No internal network interface found. Check your network configuration.")
    , condE (!scFound env.interfaces (fun d => !d.internal)) (scLog c LogLevel.error "No external network interface found. Check your network configuration.")
    , condE (!scFound env.interfaces (fun d => d.family == "IPv4" && !d.internal)) (scLog c LogLevel.error "No IPv4 network interface found. Check your network configuration.")
    , condE (!scFound env.interfaces (fun d => d.family == "IPv6" && !d.internal)) (scLog c LogLevel.error "No IPv6 network interface found. Check your network configuration.")
    , scLog c LogLevel.info "System check succeeded"
    ]

/-- Task section of workerSystemCheck.ts: the fetch either yields the
shared data (with the ambient process state bundled into `ScEnv`) or
throws into the catch. -/
def scTaskSec (c : ScriptCtx) (t : Except String ScEnv) : Effects :=
  match t with
  | Except.ok env => scBody c env
  | Except.error e => scLog c LogLevel.error (inspectErrorMsg "Failed to perform system check" e)

/-- Module body of workerSystemCheck.ts. -/
def workerSystemCheckRun (c : ScriptCtx) (t : Except String ScEnv) : Effects :=
  workerScriptRun c scName "Starting system check..." (scTaskSec c t) (exceptOk t)

/-! ## Trace observations -/

def Event.isPost : Event → Bool
  | Event.post _ => true
  | _ => false

def Event.isDebugLog : Event → Bool
  | Event.debugLog _ => true
  | _ => false

def Event.isInitPost : Event → Bool
  | Event.post (ParentPortMessage.init _ _ _) => true
  | _ => false

def Event.isExitPost : Event → Bool
  | Event.post (ParentPortMessage.exit _ _ _) => true
  | _ => false

def Event.isErrorLocalLog : Event → Bool
  | Event.localLog _ LogLevel.error _ => true
  | _ => false

/-- An event a task section may produce: a relayed log post, a local log
line, a module debug line, or a bus publish — never an init/exit post and
never a bus open/close. -/
def taskEvent : Event → Bool
  | Event.post (ParentPortMessage.log _ _ _ _ _) => true
  | Event.localLog _ _ _ => true
  | Event.debugLog _ => true
  | Event.publish _ => true
  | _ => false

/-- Events that are either a parent post or a module debug line (the
init/exit blocks produce nothing else). -/
def postOrDebug (e : Event) : Bool := e.isPost || e.isDebugLog

/-- The control messages posted over the parent link, in order. -/
def controlPosts (t : List Event) : List ParentPortMessage :=
  t.filterMap (fun e => match e with
    | Event.post m => some m
    | _ => none)

def ParentPortMessage.isInit : ParentPortMessage → Bool
  | ParentPortMessage.init _ _ _ => true
  | _ => false

def ParentPortMessage.isLog : ParentPortMessage → Bool
  | ParentPortMessage.log _ _ _ _ _ => true
  | _ => false

def ParentPortMessage.isExit : ParentPortMessage → Bool
  | ParentPortMessage.exit _ _ _ => true
  | _ => false

/-- The exit control messages found in a trace. -/
def exitPosts (t : List Event) : List ParentPortMessage :=
  (controlPosts t).filter ParentPortMessage.isExit

/-- Claim C4 as stated: no control message of any type follows an `exit`. -/
def noMsgAfterExit : List ParentPortMessage → Bool
  | [] => true
  | m :: rest => if m.isExit then rest.isEmpty else noMsgAfterExit rest

def isBusOpenE : Event → Bool
  | Event.busOpen => true
  | _ => false

def isBusCloseE : Event → Bool
  | Event.busClose => true
  | _ => false

/-- The events preceding the (first) `server.close()` call. -/
def untilClose (t : List Event) : List Event := t.takeWhile (fun e => !isBusCloseE e)

/-- The events following the (first) `server.close()` call. -/
def pastClose (t : List Event) : List Event := (t.dropWhile (fun e => !isBusCloseE e)).drop 1

/-- The events preceding the subscription (broadcast-server creation). -/
def untilOpen (t : List Event) : List Event := t.takeWhile (fun e => !isBusOpenE e)

/-- The control messages following the (first) `exit` control message. -/
def pastExit (ps : List ParentPortMessage) : List ParentPortMessage :=
  (ps.dropWhile (fun m => !m.isExit)).drop 1

/-- C3 property of one script run: the module body throws nothing, an
`init` control message is posted exactly once when off the main thread
with a link present and never otherwise, and when posted it carries
`success: true` and is the very first thing the script does. -/
def InitProtocol (r : Effects) (c : ScriptCtx) : Prop :=
  r.snd = none ∧
  (controlPosts r.fst).countP ParentPortMessage.isInit = (if workerGuard c then 1 else 0) ∧
  (workerGuard c = true →
    r.fst.head? = some (Event.post (ParentPortMessage.init c.threadId c.threadName true)))

/-- C2 property of one failing script run: the error does not escape the
module body, exactly one error-level message goes through the logging
relay, and the exit control messages are exactly one `success: false`
when a link exists (none otherwise). -/
def FailureProtocol (r : Effects) (c : ScriptCtx) : Prop :=
  r.snd = none ∧
  r.fst.countP Event.isErrorLocalLog = 1 ∧
  exitPosts r.fst = (if workerGuard c then [ParentPortMessage.exit c.threadId c.threadName false] else [])

/-- C4 (amended) property of one script run: `init` is posted exactly once
under the worker guard (never otherwise) and only as the first control
message; `exit` is posted exactly once under the guard (never otherwise);
and the only control message that can follow `exit` is the single
debug-only "exiting" log line, present exactly when the debug flag is set. -/
def ControlSequenceOk (r : Effects) (c : ScriptCtx) (nm : String) (ok : Bool) : Prop :=
  (controlPosts r.fst).countP ParentPortMessage.isInit = (if workerGuard c then 1 else 0) ∧
  (∀ m ∈ (controlPosts r.fst).drop 1, m.isInit = false) ∧
  (controlPosts r.fst).countP ParentPortMessage.isExit = (if workerGuard c then 1 else 0) ∧
  pastExit (controlPosts r.fst) =
    (if workerGuard c && c.debug then
      [ParentPortMessage.log c.threadId c.threadName (some nm) LogLevel.info (exitText c ok)]
    else [])

/-- C9 property of one script run: the bus subscription is closed exactly
once, was opened exactly once and before the close, no exit control
message precedes the close, everything after the close belongs to the exit
block (parent posts and module debug lines only), and everything before
the subscription was opened belongs to the init block. -/
def CloseProtocol (r : Effects) : Prop :=
  r.fst.countP isBusCloseE = 1 ∧
  r.fst.countP isBusOpenE = 1 ∧
  (untilClose r.fst).countP isBusOpenE = 1 ∧
  (∀ e ∈ untilClose r.fst, e.isExitPost = false) ∧
  (∀ e ∈ pastClose r.fst, (e.isPost || e.isDebugLog) = true) ∧
  (∀ e ∈ untilOpen r.fst, (e.isPost || e.isDebugLog) = true)

/-! ## Concrete contexts used by witnesses and counterexamples -/

/-- The real main-thread ambient state: no parent link, `workerData`
undefined. -/
def mainCtx : WorkerCtx :=
  { isMainThread := true, parentPortPresent := false, threadId := 0
    workerData := none, debug := false, verbose := false }

/-- A worker ambient state as produced by `createESMWorker`. -/
def workerCtx0 : WorkerCtx :=
  { isMainThread := false, parentPortPresent := true, threadId := 1
    workerData := some "CheckUpdates", debug := false, verbose := false }

/-- A ping-like control message used as a concrete input. -/
def pingMsg : ParentPortMessage := ParentPortMessage.log 0 "Main" none LogLevel.info "ping"

/-- A debug-enabled worker script context. -/
def scriptCtxDebug : ScriptCtx :=
  { isMainThread := false, parentPortPresent := true, threadId := 1
    threadName := "CheckUpdates", debug := true, verbose := false }

/-- A plain worker script context. -/
def scriptCtx0 : ScriptCtx :=
  { isMainThread := false, parentPortPresent := true, threadId := 1
    threadName := "CheckUpdates", debug := false, verbose := false }

/-- A main-thread script context (no link). -/
def scriptCtxMain : ScriptCtx :=
  { isMainThread := true, parentPortPresent := false, threadId := 0
    threadName := "CheckUpdates", debug := false, verbose := false }

/-- An empty bus: no temporary listeners registered. -/
def busState0 : BusState := ⟨[]⟩

/-- The shared-state request the workers send. -/
def fetchReq0 : WorkerMessage :=
  { type := "matterbridge_shared", src := "matterbridge", dst := "matterbridge" }

/-- A response envelope matching correlation id 7. -/
def fetchResp0 : WorkerMessage :=
  { type := "matterbridge_shared", src := "matterbridge", dst := "matterbridge"
    id := some 7, result := some "data" }

/-- A checkUpdates task where both steps succeed. -/
def cuTaskOk : CuTask := ⟨Except.ok (), Except.ok ()⟩

/-- A checkUpdates task whose fetch throws. -/
def cuTaskFail : CuTask := ⟨Except.error "boom", Except.ok ()⟩

/-- A concrete ambient state for workerSystemCheck. -/
def scEnv0 : ScEnv := ⟨false, 24, 13, 0, false, []⟩

/-! # Theorems -/

theorem parentPost_nolink (ctx : WorkerCtx) (m : ParentPortMessage)
    (h : ctx.parentPortPresent = false) :
    (parentPost ctx m).fst = [] ∧ (parentPost ctx m).snd.isSome = true := by
  cases hw : ctx.workerData <;> simp [parentPost, h, hw]

theorem parentLog_nolink (ctx : WorkerCtx) (nm : Option String) (lv : LogLevel) (msg : String)
    (h : ctx.parentPortPresent = false) :
    (parentLog ctx nm lv msg).fst = [] ∧ (parentLog ctx nm lv msg).snd.isSome = true := by
  cases hw : ctx.workerData <;> simp [parentLog, h, hw]

theorem parentPost_link (ctx : WorkerCtx) (m : ParentPortMessage) (tn : String)
    (hp : ctx.parentPortPresent = true) (hw : ctx.workerData = some tn) :
    parentPost ctx m =
      (Event.post m ::
        (if ctx.debug then [Event.debugLog (dbgSentText tn ctx.threadId)] else []), none) := by
  simp [parentPost, hp, hw]

theorem parentLog_link (ctx : WorkerCtx) (nm : Option String) (lv : LogLevel) (msg : String) (tn : String)
    (hp : ctx.parentPortPresent = true) (hw : ctx.workerData = some tn) :
    parentLog ctx nm lv msg =
      (Event.post (ParentPortMessage.log ctx.threadId tn nm lv msg) ::
        (if ctx.debug then [Event.debugLog (dbgSentLogText tn ctx.threadId)] else []), none) := by
  simp [parentLog, hp, hw]

/-- C10: whenever parentPost or parentLog throws because no control-plane
link is present, no message has been posted: the link check (and, on the
main thread, the failing property access inside the error-message template)
precedes the postMessage call, so a failed call leaves the control plane
unchanged. -/
theorem claim_C10_error_atomicity (ctx : WorkerCtx) (m : ParentPortMessage)
    (nm : Option String) (lv : LogLevel) (msg : String)
    (h : ctx.parentPortPresent = false) :
    (parentPost ctx m).fst = [] ∧ (parentPost ctx m).snd.isSome = true ∧
    (parentLog ctx nm lv msg).fst = [] ∧ (parentLog ctx nm lv msg).snd.isSome = true :=
  ⟨(parentPost_nolink ctx m h).1, (parentPost_nolink ctx m h).2,
   (parentLog_nolink ctx nm lv msg h).1, (parentLog_nolink ctx nm lv msg h).2⟩

theorem claim_C10_error_atomicity_witness :
    mainCtx.parentPortPresent = false ∧
    ((parentPost mainCtx pingMsg).fst = [] ∧ (parentPost mainCtx pingMsg).snd.isSome = true ∧
     (parentLog mainCtx (some "Any") LogLevel.info "msg").fst = [] ∧
     (parentLog mainCtx (some "Any") LogLevel.info "msg").snd.isSome = true) :=
  ⟨rfl, claim_C10_error_atomicity mainCtx pingMsg (some "Any") LogLevel.info "msg" rfl⟩

/-- C6 counterexample: on the real main thread there is no link AND
`workerData` is undefined, so evaluating the error-message template
`WorkerServer ${workerData.threadName}: ...` throws a TypeError — the call
does fail synchronously, but not with the explicit link-unavailable error
the claim states. -/
theorem claim_C6_counterexample :
    (parentPost mainCtx pingMsg).snd
        = some (JsError.typeError "Cannot read properties of undefined (reading threadName)") ∧
    isExplicitError (parentPost mainCtx pingMsg).snd = false ∧
    (parentLog mainCtx (some "Any") LogLevel.info "msg").snd
        = some (JsError.typeError "Cannot read properties of undefined (reading threadName)") ∧
    isExplicitError (parentLog mainCtx (some "Any") LogLevel.info "msg").snd = false :=
  ⟨rfl, rfl, rfl, rfl⟩

/-- C6 (amended): with no link the primitives fail synchronously having
posted nothing; the failure is the explicit link-unavailable Error exactly
when `workerData` is available (as in a worker whose link is gone, or the
mocked tests), while on the main thread — where `workerData` is undefined —
it is a TypeError from the error-message template itself.  With a link and
`workerData` present, parentPost posts the given message unchanged and
parentLog posts a log control message carrying the given logName, logLevel
and message plus the worker's threadId and threadName. -/
theorem claim_C6_raw_primitives (ctx : WorkerCtx) (m : ParentPortMessage)
    (nm : Option String) (lv : LogLevel) (msg : String) (tn : String) :
    (ctx.parentPortPresent = false →
      (parentPost ctx m).fst = [] ∧ (parentPost ctx m).snd.isSome = true ∧
      (parentLog ctx nm lv msg).fst = [] ∧ (parentLog ctx nm lv msg).snd.isSome = true ∧
      isExplicitError (parentPost ctx m).snd = ctx.workerData.isSome ∧
      isExplicitError (parentLog ctx nm lv msg).snd = ctx.workerData.isSome) ∧
    (ctx.parentPortPresent = true → ctx.workerData = some tn →
      (parentPost ctx m).fst.head? = some (Event.post m) ∧ (parentPost ctx m).snd = none ∧
      (parentLog ctx nm lv msg).fst.head?
          = some (Event.post (ParentPortMessage.log ctx.threadId tn nm lv msg)) ∧
      (parentLog ctx nm lv msg).snd = none) := by
  constructor
  · intro h
    refine ⟨(parentPost_nolink ctx m h).1, (parentPost_nolink ctx m h).2,
      (parentLog_nolink ctx nm lv msg h).1, (parentLog_nolink ctx nm lv msg h).2, ?_, ?_⟩ <;>
      cases hw : ctx.workerData <;> simp [parentPost, parentLog, isExplicitError, h, hw]
  · intro hp hw
    rw [parentPost_link ctx m tn hp hw, parentLog_link ctx nm lv msg tn hp hw]
    simp

theorem claim_C6_raw_primitives_witness :
    (mainCtx.parentPortPresent = false ∧
      ((parentPost mainCtx pingMsg).fst = [] ∧ (parentPost mainCtx pingMsg).snd.isSome = true ∧
       (parentLog mainCtx (some "Any") LogLevel.info "m").fst = [] ∧
       (parentLog mainCtx (some "Any") LogLevel.info "m").snd.isSome = true ∧
       isExplicitError (parentPost mainCtx pingMsg).snd = mainCtx.workerData.isSome ∧
       isExplicitError (parentLog mainCtx (some "Any") LogLevel.info "m").snd = mainCtx.workerData.isSome)) ∧
    (workerCtx0.parentPortPresent = true ∧ workerCtx0.workerData = some "CheckUpdates" ∧
      ((parentPost workerCtx0 pingMsg).fst.head? = some (Event.post pingMsg) ∧
       (parentPost workerCtx0 pingMsg).snd = none ∧
       (parentLog workerCtx0 (some "Any") LogLevel.info "m").fst.head?
           = some (Event.post (ParentPortMessage.log workerCtx0.threadId "CheckUpdates" (some "Any") LogLevel.info "m")) ∧
       (parentLog workerCtx0 (some "Any") LogLevel.info "m").snd = none)) :=
  ⟨⟨rfl, (claim_C6_raw_primitives mainCtx pingMsg (some "Any") LogLevel.info "m" "T").1 rfl⟩,
   ⟨rfl, rfl, (claim_C6_raw_primitives workerCtx0 pingMsg (some "Any") LogLevel.info "m" "CheckUpdates").2 rfl rfl⟩⟩

/-- C5: threadLogger always writes the message first to a local,
synchronously-created logger tagged with `threadName`; it posts a log
control message carrying threadName, level, message and the worker's
threadId if and only if it runs off the main thread with a link present;
and it never throws — the relay call is gated by the presence check, so
the link-unavailable branch is unreachable from it.  The hypothesis that
`workerData` is present whenever a link is holds for every worker this
repository spawns, since `createESMWorker` always sets `threadName`. -/
theorem claim_C5_threadLogger (ctx : WorkerCtx) (n : String) (lv : LogLevel) (msg : String)
    (hwf : ctx.parentPortPresent = true → ctx.workerData.isSome = true) :
    (threadLogger ctx n lv msg).snd = none ∧
    (threadLogger ctx n lv msg).fst.head? = some (Event.localLog n lv msg) ∧
    ((!ctx.isMainThread && ctx.parentPortPresent) = false →
      (threadLogger ctx n lv msg).fst = [Event.localLog n lv msg]) ∧
    (∀ tn, ctx.workerData = some tn → (!ctx.isMainThread && ctx.parentPortPresent) = true →
      controlPosts (threadLogger ctx n lv msg).fst
        = [ParentPortMessage.log ctx.threadId tn (some n) lv msg]) := by
  by_cases hg : (!ctx.isMainThread && ctx.parentPortPresent) = true
  · have hp : ctx.parentPortPresent = true := by
      rcases Bool.and_eq_true_iff.mp hg with ⟨-, h⟩
      exact h
    rcases Option.isSome_iff_exists.mp (hwf hp) with ⟨tn, hw⟩
    rw [show (threadLogger ctx n lv msg) = _ from rfl]
    refine ⟨?_, ?_, ?_, ?_⟩
    · simp [threadLogger, hg, parentLog_link ctx (some n) lv msg tn hp hw]
    · simp [threadLogger, hg]
    · intro hng; rw [hng] at hg; exact absurd hg (by simp)
    · intro tn2 hw2 _
      rw [hw] at hw2
      cases hw2
      by_cases hd : ctx.debug = true <;>
        simp [threadLogger, hg, parentLog_link ctx (some n) lv msg tn hp hw, controlPosts, hd]
  · have hg2 : (!ctx.isMainThread && ctx.parentPortPresent) = false := by
      cases h : (!ctx.isMainThread && ctx.parentPortPresent)
      · rfl
      · exact absurd h hg
    refine ⟨?_, ?_, ?_, ?_⟩
    · simp [threadLogger, hg2]
    · simp [threadLogger, hg2]
    · intro _; simp [threadLogger, hg2]
    · intro tn hw hcontra; rw [hcontra] at hg2; cases hg2

theorem claim_C5_threadLogger_witness :
    (workerCtx0.parentPortPresent = true → workerCtx0.workerData.isSome = true) ∧
    ((threadLogger workerCtx0 "T" LogLevel.info "hi").snd = none ∧
     (threadLogger workerCtx0 "T" LogLevel.info "hi").fst.head?
        = some (Event.localLog "T" LogLevel.info "hi") ∧
     ((!workerCtx0.isMainThread && workerCtx0.parentPortPresent) = false →
       (threadLogger workerCtx0 "T" LogLevel.info "hi").fst = [Event.localLog "T" LogLevel.info "hi"]) ∧
     (∀ tn, workerCtx0.workerData = some tn →
        (!workerCtx0.isMainThread && workerCtx0.parentPortPresent) = true →
        controlPosts (threadLogger workerCtx0 "T" LogLevel.info "hi").fst
          = [ParentPortMessage.log workerCtx0.threadId tn (some "T") LogLevel.info "hi"])) :=
  ⟨fun _ => rfl, claim_C5_threadLogger workerCtx0 "T" LogLevel.info "hi" (fun _ => rfl)⟩

/-- C8: the response envelope copies `type` and `id` unchanged from the
request, swaps `src`/`dst`, and attaches the given result and optional
success flag. -/
theorem claim_C8_respond (req : WorkerMessage) (res : String) (s : Option Bool) :
    (respond req res s).type = req.type ∧ (respond req res s).id = req.id ∧
    (respond req res s).src = req.dst ∧ (respond req res s).dst = req.src ∧
    (respond req res s).result = some res ∧ (respond req res s).success = s :=
  ⟨rfl, rfl, rfl, rfl, rfl, rfl⟩

/-- C7: createESMWorker passes `{ ...data, threadName: name }` as the
worker's initial data (threadName wins, every other key is taken from
`data`); argv defaults to the supervisor's process arguments minus the
first two entries; env defaults to the supervisor's environment; execArgv
defaults to none; stdout/stderr are captured iff pipedOutput — and the
explicitly provided values pass through unchanged. -/
theorem claim_C7_createESMWorker (proc : ProcessState) (nm : String)
    (data : List (String × String)) (p : Bool) :
    (recGet (createESMWorker proc nm data none none none p).workerData "threadName" = some nm ∧
     (∀ k, k ≠ "threadName" →
        recGet (createESMWorker proc nm data none none none p).workerData k = recGet data k) ∧
     (createESMWorker proc nm data none none none p).argv = proc.argv.drop 2 ∧
     (createESMWorker proc nm data none none none p).env = proc.env ∧
     (createESMWorker proc nm data none none none p).execArgv = none ∧
     (createESMWorker proc nm data none none none p).stdout = p ∧
     (createESMWorker proc nm data none none none p).stderr = p) ∧
    (∀ av ev ea,
      (createESMWorker proc nm data (some av) (some ev) (some ea) p).argv = av ∧
      (createESMWorker proc nm data (some av) (some ev) (some ea) p).env = ev ∧
      (createESMWorker proc nm data (some av) (some ev) (some ea) p).execArgv = some ea ∧
      (createESMWorker proc nm data (some av) (some ev) (some ea) p).workerData
        = (createESMWorker proc nm data none none none p).workerData) := by
  refine ⟨⟨?_, ?_, rfl, rfl, rfl, rfl, rfl⟩, fun av ev ea => ⟨rfl, rfl, rfl, rfl⟩⟩
  · simp [createESMWorker, recGet]
  · intro k hk
    have hbe : (("threadName" : String) == k) = false := by
      simp [hk.symm]
    simp [createESMWorker, recGet, hbe]

theorem claim_C7_createESMWorker_witness :
    recGet
      (createESMWorker ⟨["node", "script", "--x"], [("HOME", "/root")]⟩ "N"
        [("a", "1"), ("threadName", "old")] none none none true).workerData "threadName" = some "N" ∧
    ("a" ≠ "threadName" →
      recGet
        (createESMWorker ⟨["node", "script", "--x"], [("HOME", "/root")]⟩ "N"
          [("a", "1"), ("threadName", "old")] none none none true).workerData "a"
        = recGet [("a", "1"), ("threadName", "old")] "a") ∧
    (createESMWorker ⟨["node", "script", "--x"], [("HOME", "/root")]⟩ "N"
        [("a", "1"), ("threadName", "old")] none none none true).argv = ["--x"] :=
  ⟨(claim_C7_createESMWorker ⟨["node", "script", "--x"], [("HOME", "/root")]⟩ "N"
      [("a", "1"), ("threadName", "old")] true).1.1,
   fun h => (claim_C7_createESMWorker ⟨["node", "script", "--x"], [("HOME", "/root")]⟩ "N"
      [("a", "1"), ("threadName", "old")] true).1.2.1 "a" h,
   (claim_C7_createESMWorker ⟨["node", "script", "--x"], [("HOME", "/root")]⟩ "N"
      [("a", "1"), ("threadName", "old")] true).1.2.2.1⟩

/-! ## C1: fetch -/

theorem fetchScan_timedOut (fid timeoutMs : Nat) (events : List (Nat × WorkerMessage))
    (h : ∀ q ∈ events, q.fst < timeoutMs → fetchMatches fid q.snd = false) :
    fetchScan fid timeoutMs events = FetchOutcome.timedOut := by
  induction events with
  | nil => rfl
  | cons q rest ih =>
    rcases q with ⟨t, e⟩
    by_cases ht : timeoutMs ≤ t
    · simp [fetchScan, ht]
    · have hm : fetchMatches fid e = false :=
        h (t, e) (List.mem_cons_self _ _) (Nat.lt_of_not_le ht)
      simp only [fetchScan, if_neg ht, hm, Bool.false_eq_true, if_false]
      exact ih (fun q hq hlt => h q (List.mem_cons_of_mem _ hq) hlt)

theorem fetchScan_resolved (fid timeoutMs : Nat) (events : List (Nat × WorkerMessage))
    (e : WorkerMessage) (h : fetchScan fid timeoutMs events = FetchOutcome.resolved e) :
    fetchMatches fid e = true ∧ FirstMatch fid timeoutMs events e := by
  induction events with
  | nil => cases h
  | cons q rest ih =>
    rcases q with ⟨t, e2⟩
    by_cases ht : timeoutMs ≤ t
    · rw [show fetchScan fid timeoutMs ((t, e2) :: rest) = FetchOutcome.timedOut from by
        simp [fetchScan, ht]] at h
      cases h
    · cases hm : fetchMatches fid e2 with
      | true =>
        have heq : FetchOutcome.resolved e2 = FetchOutcome.resolved e := by
          rw [show fetchScan fid timeoutMs ((t, e2) :: rest) = FetchOutcome.resolved e2 from by
            simp [fetchScan, ht, hm]] at h
          exact h
        obtain rfl : e2 = e := by injection heq
        exact ⟨hm, [], t, rest, rfl, Nat.lt_of_not_le ht,
          fun q hq => absurd hq (List.not_mem_nil q)⟩
      | false =>
        have h2 : fetchScan fid timeoutMs rest = FetchOutcome.resolved e := by
          rw [show fetchScan fid timeoutMs ((t, e2) :: rest) = fetchScan fid timeoutMs rest from by
            simp [fetchScan, ht, hm]] at h
          exact h
        obtain ⟨hme, pre, t2, rest2, heq, hlt, hpre⟩ := ih h2
        refine ⟨hme, (t, e2) :: pre, t2, rest2, by rw [heq, List.cons_append], hlt, ?_⟩
        intro q hq
        rcases List.mem_cons.mp hq with hq | hq
        · subst hq; exact ⟨Nat.lt_of_not_le ht, hm⟩
        · exact hpre q hq

/-- C1: `fetch` stamps the fresh correlation id onto the published request;
it resolves only with the first observed envelope arriving before the
timeout whose id matches the stamped id and which carries `result`; if no
such envelope arrives before the timeout it rejects (timeout); and in both
outcomes the temporary per-call listener is unregistered — the final
listener set equals the initial one, so an envelope with the fetch's id
arriving later wakes no listener (no observable effect).

Modelled from the spec: `broadcastServer.ts` is not among the provided
sources, only its tests and callers are. -/
theorem claim_C1_fetch (s : BusState) (fid timeoutMs : Nat) (req : WorkerMessage)
    (events : List (Nat × WorkerMessage)) (h : fid ∉ s.listeners) :
    (runFetch s fid timeoutMs req events).1 = { req with id := some fid } ∧
    (runFetch s fid timeoutMs req events).2.2 = s ∧
    (∀ e, (runFetch s fid timeoutMs req events).2.1 = FetchOutcome.resolved e →
      fetchMatches fid e = true ∧ FirstMatch fid timeoutMs events e) ∧
    ((∀ q ∈ events, q.fst < timeoutMs → fetchMatches fid q.snd = false) →
      (runFetch s fid timeoutMs req events).2.1 = FetchOutcome.timedOut) ∧
    (∀ e : WorkerMessage, e.id = some fid →
      notifies (runFetch s fid timeoutMs req events).2.2 e = []) := by
  have hclean : (runFetch s fid timeoutMs req events).2.2 = s := by
    simp [runFetch]
  refine ⟨rfl, hclean, ?_, ?_, ?_⟩
  · intro e he
    exact fetchScan_resolved fid timeoutMs events e he
  · intro hall
    exact fetchScan_timedOut fid timeoutMs events hall
  · intro e hid
    rw [hclean]
    unfold notifies
    rw [List.filter_eq_nil_iff]
    intro l hl
    rw [hid]
    simp only [beq_iff_eq, Option.some.injEq]
    intro heq
    exact h (heq ▸ hl)

theorem claim_C1_fetch_witness :
    7 ∉ busState0.listeners ∧
    ((runFetch busState0 7 1000 fetchReq0 [(5, fetchResp0)]).1 = { fetchReq0 with id := some 7 } ∧
     (runFetch busState0 7 1000 fetchReq0 [(5, fetchResp0)]).2.2 = busState0 ∧
     (∀ e, (runFetch busState0 7 1000 fetchReq0 [(5, fetchResp0)]).2.1 = FetchOutcome.resolved e →
       fetchMatches 7 e = true ∧ FirstMatch 7 1000 [(5, fetchResp0)] e) ∧
     ((∀ q ∈ [(5, fetchResp0)], q.fst < 1000 → fetchMatches 7 q.snd = false) →
       (runFetch busState0 7 1000 fetchReq0 [(5, fetchResp0)]).2.1 = FetchOutcome.timedOut) ∧
     (∀ e : WorkerMessage, e.id = some 7 →
       notifies (runFetch busState0 7 1000 fetchReq0 [(5, fetchResp0)]).2.2 e = [])) :=
  ⟨by decide, claim_C1_fetch busState0 7 1000 fetchReq0 [(5, fetchResp0)] (by decide)⟩

/-! ## Worker-script trace infrastructure -/

theorem toWorkerCtx_isMainThread (c : ScriptCtx) : c.toWorkerCtx.isMainThread = c.isMainThread := rfl

theorem toWorkerCtx_port (c : ScriptCtx) : c.toWorkerCtx.parentPortPresent = c.parentPortPresent := rfl

theorem toWorkerCtx_threadId (c : ScriptCtx) : c.toWorkerCtx.threadId = c.threadId := rfl

theorem toWorkerCtx_workerData (c : ScriptCtx) : c.toWorkerCtx.workerData = some c.threadName := rfl

theorem toWorkerCtx_debug (c : ScriptCtx) : c.toWorkerCtx.debug = c.debug := rfl

theorem workerGuard_true_pp {c : ScriptCtx} (hg : workerGuard c = true) :
    c.parentPortPresent = true := by
  cases hpp : c.parentPortPresent with
  | true => rfl
  | false =>
    rw [workerGuard, hpp, Bool.and_false] at hg
    cases hg

theorem seqM_none {a : Effects} (b : Effects) (ha : a.snd = none) :
    seqM a b = (a.fst ++ b.fst, b.snd) := by
  unfold seqM
  rw [ha]

theorem threadLogger_script (c : ScriptCtx) (n : String) (lv : LogLevel) (m : String) :
    threadLogger c.toWorkerCtx n lv m =
      (Event.localLog n lv m ::
        (if workerGuard c then
          Event.post (ParentPortMessage.log c.threadId c.threadName (some n) lv m) ::
            (if c.debug then [Event.debugLog (dbgSentLogText c.threadName c.threadId)] else [])
        else []), none) := by
  unfold threadLogger
  have hcond : (!c.toWorkerCtx.isMainThread && c.toWorkerCtx.parentPortPresent) = workerGuard c := rfl
  by_cases hg : workerGuard c = true
  · have hp : c.toWorkerCtx.parentPortPresent = true := by
      rw [toWorkerCtx_port]
      exact workerGuard_true_pp hg
    rw [hcond, if_pos hg,
      parentLog_link c.toWorkerCtx (some n) lv m c.threadName hp (toWorkerCtx_workerData c)]
    simp [hg, toWorkerCtx_debug, toWorkerCtx_threadId]
  · have hg2 : workerGuard c = false := by simpa using hg
    rw [hcond, hg2]
    simp [hg2]

theorem threadLogger_script_snd (c : ScriptCtx) (n : String) (lv : LogLevel) (m : String) :
    (threadLogger c.toWorkerCtx n lv m).snd = none := by
  rw [threadLogger_script]

theorem scriptInitSec_eq (c : ScriptCtx) (nm : String) :
    scriptInitSec c nm =
      ((if workerGuard c then
          Event.post (ParentPortMessage.init c.threadId c.threadName true) ::
            (if c.debug then
              [Event.debugLog (dbgSentText c.threadName c.threadId),
               Event.post (ParentPortMessage.log c.threadId c.threadName (some nm) LogLevel.info (initText c)),
               Event.debugLog (dbgSentLogText c.threadName c.threadId)]
            else [])
        else []), none) := by
  unfold scriptInitSec
  by_cases hg : workerGuard c = true
  · have hp : c.toWorkerCtx.parentPortPresent = true := by
      rw [toWorkerCtx_port]
      exact workerGuard_true_pp hg
    rw [if_pos hg,
      parentPost_link c.toWorkerCtx (ParentPortMessage.init c.threadId c.threadName true)
        c.threadName hp (toWorkerCtx_workerData c)]
    by_cases hd : c.debug = true
    · rw [if_pos (show c.toWorkerCtx.debug = true from hd),
        parentLog_link c.toWorkerCtx (some nm) LogLevel.info (initText c) c.threadName hp
          (toWorkerCtx_workerData c)]
      simp [seqM, hg, hd, toWorkerCtx_debug, toWorkerCtx_threadId]
    · have hd2 : c.debug = false := by simpa using hd
      simp [seqM, retE, hg, hd2, toWorkerCtx_debug, toWorkerCtx_threadId]
  · have hg2 : workerGuard c = false := by simpa using hg
    simp [retE, hg2]

theorem scriptExitSec_eq (c : ScriptCtx) (nm : String) (ok : Bool) :
    scriptExitSec c nm ok =
      ((if workerGuard c then
          Event.post (ParentPortMessage.exit c.threadId c.threadName ok) ::
            (if c.debug then
              [Event.debugLog (dbgSentText c.threadName c.threadId),
               Event.post (ParentPortMessage.log c.threadId c.threadName (some nm) LogLevel.info (exitText c ok)),
               Event.debugLog (dbgSentLogText c.threadName c.threadId)]
            else [])
        else []), none) := by
  unfold scriptExitSec
  by_cases hg : workerGuard c = true
  · have hp : c.toWorkerCtx.parentPortPresent = true := by
      rw [toWorkerCtx_port]
      exact workerGuard_true_pp hg
    rw [if_pos hg,
      parentPost_link c.toWorkerCtx (ParentPortMessage.exit c.threadId c.threadName ok)
        c.threadName hp (toWorkerCtx_workerData c)]
    by_cases hd : c.debug = true
    · rw [if_pos (show c.toWorkerCtx.debug = true from hd),
        parentLog_link c.toWorkerCtx (some nm) LogLevel.info (exitText c ok) c.threadName hp
          (toWorkerCtx_workerData c)]
      simp [seqM, hg, hd, toWorkerCtx_debug, toWorkerCtx_threadId]
    · have hd2 : c.debug = false := by simpa using hd
      simp [seqM, retE, hg, hd2, toWorkerCtx_debug, toWorkerCtx_threadId]
  · have hg2 : workerGuard c = false := by simpa using hg
    simp [retE, hg2]

theorem workerScriptRun_eq (c : ScriptCtx) (nm sm : String) (task : Effects) (ok : Bool)
    (ht : task.snd = none) :
    workerScriptRun c nm sm task ok =
      ((scriptInitSec c nm).fst ++ [Event.busOpen] ++
        (if c.verbose then [Event.workerInfo] else []) ++
        (threadLogger c.toWorkerCtx nm LogLevel.info sm).fst ++ task.fst ++ [Event.busClose] ++
        (scriptExitSec c nm ok).fst, none) := by
  have h1 : (scriptInitSec c nm).snd = none := by rw [scriptInitSec_eq]
  have h3 : (if c.verbose then emitE [Event.workerInfo] else retE).snd = none := by
    by_cases hv : c.verbose = true <;> simp [hv, emitE, retE]
  have h3f : (if c.verbose then emitE [Event.workerInfo] else retE).fst
      = (if c.verbose then [Event.workerInfo] else []) := by
    by_cases hv : c.verbose = true <;> simp [hv, emitE, retE]
  have h4 : (threadLogger c.toWorkerCtx nm LogLevel.info sm).snd = none :=
    threadLogger_script_snd c nm LogLevel.info sm
  have h7 : (scriptExitSec c nm ok).snd = none := by rw [scriptExitSec_eq]
  unfold workerScriptRun
  rw [seqM_none _ h1, seqM_none _ (show (emitE [Event.busOpen]).snd = none from rfl),
    seqM_none _ h3, seqM_none _ h4, seqM_none _ ht,
    seqM_none _ (show (emitE [Event.busClose]).snd = none from rfl), h3f, h7]
  simp [emitE, List.append_assoc]

theorem scriptInitSec_members (c : ScriptCtx) (nm : String) :
    ∀ e ∈ (scriptInitSec c nm).fst, postOrDebug e = true := by
  rw [scriptInitSec_eq]
  by_cases hg : workerGuard c = true <;> by_cases hd : c.debug = true <;>
    simp [hg, hd, postOrDebug, Event.isPost, Event.isDebugLog]

theorem scriptExitSec_members (c : ScriptCtx) (nm : String) (ok : Bool) :
    ∀ e ∈ (scriptExitSec c nm ok).fst, postOrDebug e = true := by
  rw [scriptExitSec_eq]
  by_cases hg : workerGuard c = true <;> by_cases hd : c.debug = true <;>
    simp [hg, hd, postOrDebug, Event.isPost, Event.isDebugLog]

theorem threadLogger_members (c : ScriptCtx) (n : String) (lv : LogLevel) (m : String) :
    ∀ e ∈ (threadLogger c.toWorkerCtx n lv m).fst, taskEvent e = true := by
  rw [threadLogger_script]
  by_cases hg : workerGuard c = true <;> by_cases hd : c.debug = true <;>
    simp [hg, hd, taskEvent]

theorem seqM_members {p : Event → Bool} {a b : Effects}
    (ha : ∀ e ∈ a.fst, p e = true) (hb : ∀ e ∈ b.fst, p e = true) :
    ∀ e ∈ (seqM a b).fst, p e = true := by
  intro e he
  rcases a with ⟨af, as⟩
  cases as with
  | none =>
    rcases List.mem_append.mp (by simpa [seqM] using he) with h | h
    · exact ha e h
    · exact hb e h
  | some err => exact ha e (by simpa [seqM] using he)

theorem seqM_snd_none {a b : Effects} (ha : a.snd = none) (hb : b.snd = none) :
    (seqM a b).snd = none := by
  unfold seqM
  rw [ha]
  exact hb

theorem seqAll_members {p : Event → Bool} :
    ∀ l : List Effects, (∀ x ∈ l, ∀ e ∈ x.fst, p e = true) →
      ∀ e ∈ (seqAll l).fst, p e = true := by
  intro l
  induction l with
  | nil =>
    intro _ e he
    simp [seqAll, retE] at he
  | cons x rest ih =>
    intro h e he
    exact seqM_members (h x (List.mem_cons_self x rest))
      (ih (fun y hy => h y (List.mem_cons_of_mem x hy))) e he

theorem seqAll_snd_none :
    ∀ l : List Effects, (∀ x ∈ l, x.snd = none) → (seqAll l).snd = none := by
  intro l
  induction l with
  | nil => intro _; rfl
  | cons x rest ih =>
    intro h
    exact seqM_snd_none (h x (List.mem_cons_self x rest))
      (ih (fun y hy => h y (List.mem_cons_of_mem x hy)))

theorem condE_members {p : Event → Bool} {b : Bool} {x : Effects}
    (hx : ∀ e ∈ x.fst, p e = true) : ∀ e ∈ (condE b x).fst, p e = true := by
  cases b with
  | false => intro e he; simp [condE, retE] at he
  | true => intro e he; exact hx e (by simpa [condE] using he)

theorem condE_snd {b : Bool} {x : Effects} (hx : x.snd = none) : (condE b x).snd = none := by
  cases b with
  | false => rfl
  | true => exact hx

/-! ## Event-kind facts -/

theorem postOrDebug_not_errorLocal (e : Event) (h : postOrDebug e = true) :
    e.isErrorLocalLog = false := by
  cases e <;> simp_all [postOrDebug, Event.isPost, Event.isDebugLog, Event.isErrorLocalLog]

theorem postOrDebug_not_bus (e : Event) (h : postOrDebug e = true) :
    isBusOpenE e = false ∧ isBusCloseE e = false := by
  cases e <;> simp_all [postOrDebug, Event.isPost, Event.isDebugLog, isBusOpenE, isBusCloseE]

theorem taskEvent_not_exitPost (e : Event) (h : taskEvent e = true) : e.isExitPost = false := by
  cases e with
  | post m => cases m <;> simp_all [taskEvent, Event.isExitPost]
  | _ => simp_all [taskEvent, Event.isExitPost]

theorem taskEvent_not_initPost (e : Event) (h : taskEvent e = true) : e.isInitPost = false := by
  cases e with
  | post m => cases m <;> simp_all [taskEvent, Event.isInitPost]
  | _ => simp_all [taskEvent, Event.isInitPost]

theorem taskEvent_not_bus (e : Event) (h : taskEvent e = true) :
    isBusOpenE e = false ∧ isBusCloseE e = false := by
  cases e <;> simp_all [taskEvent, isBusOpenE, isBusCloseE]

theorem taskEvent_not_errorLocal_of_level (nm : String) (lv : LogLevel) (m : String)
    (h : lv ≠ LogLevel.error) : (Event.localLog nm lv m).isErrorLocalLog = false := by
  cases lv <;> simp_all [Event.isErrorLocalLog]

theorem isLog_not_init (m : ParentPortMessage) (h : m.isLog = true) : m.isInit = false := by
  cases m <;> simp_all [ParentPortMessage.isLog, ParentPortMessage.isInit]

theorem isLog_not_exit (m : ParentPortMessage) (h : m.isLog = true) : m.isExit = false := by
  cases m <;> simp_all [ParentPortMessage.isLog, ParentPortMessage.isExit]

theorem countP_zero_of_all {α : Type} (p q : α → Bool) (l : List α)
    (h : ∀ a ∈ l, q a = true) (himp : ∀ a, q a = true → p a = false) :
    l.countP p = 0 := by
  rw [List.countP_eq_zero]
  intro a ha
  simp [himp a (h a ha)]

theorem taskPosts_isLog (t : List Event) (h : ∀ e ∈ t, taskEvent e = true) :
    ∀ m ∈ controlPosts t, m.isLog = true := by
  intro m hm
  rcases List.mem_filterMap.mp hm with ⟨e, he, hme⟩
  have ht := h e he
  cases e with
  | post m2 =>
    simp at hme
    subst hme
    cases m2 <;> simp_all [taskEvent, ParentPortMessage.isLog]
  | localLog a b c2 => simp at hme
  | debugLog a => simp at hme
  | publish a => simp at hme
  | busOpen => simp at hme
  | busClose => simp at hme
  | workerInfo => simp at hme

/-! ## takeWhile/dropWhile over sections -/

theorem dropWhile_append_all {α : Type} (p : α → Bool) (l1 l2 : List α)
    (h : ∀ a ∈ l1, p a = true) : (l1 ++ l2).dropWhile p = l2.dropWhile p := by
  induction l1 with
  | nil => rfl
  | cons a l ih =>
    have ha : p a = true := h a (List.mem_cons_self a l)
    rw [List.cons_append, List.dropWhile_cons_of_pos ha]
    exact ih (fun b hb => h b (List.mem_cons_of_mem a hb))

theorem takeWhile_append_all {α : Type} (p : α → Bool) (l1 l2 : List α)
    (h : ∀ a ∈ l1, p a = true) : (l1 ++ l2).takeWhile p = l1 ++ l2.takeWhile p := by
  induction l1 with
  | nil => rfl
  | cons a l ih =>
    have ha : p a = true := h a (List.mem_cons_self a l)
    rw [List.cons_append, List.takeWhile_cons_of_pos ha, ih (fun b hb => h b (List.mem_cons_of_mem a hb)),
      List.cons_append]

/-! ## controlPosts characterizations -/

theorem controlPosts_append (a b : List Event) :
    controlPosts (a ++ b) = controlPosts a ++ controlPosts b := by
  unfold controlPosts
  rw [List.filterMap_append]

theorem controlPosts_scriptInitSec (c : ScriptCtx) (nm : String) :
    controlPosts (scriptInitSec c nm).fst =
      if workerGuard c then
        ParentPortMessage.init c.threadId c.threadName true ::
          (if c.debug then
            [ParentPortMessage.log c.threadId c.threadName (some nm) LogLevel.info (initText c)]
          else [])
      else [] := by
  rw [scriptInitSec_eq]
  by_cases hg : workerGuard c = true <;> by_cases hd : c.debug = true <;>
    simp [hg, hd, controlPosts]

theorem controlPosts_scriptExitSec (c : ScriptCtx) (nm : String) (ok : Bool) :
    controlPosts (scriptExitSec c nm ok).fst =
      if workerGuard c then
        ParentPortMessage.exit c.threadId c.threadName ok ::
          (if c.debug then
            [ParentPortMessage.log c.threadId c.threadName (some nm) LogLevel.info (exitText c ok)]
          else [])
      else [] := by
  rw [scriptExitSec_eq]
  by_cases hg : workerGuard c = true <;> by_cases hd : c.debug = true <;>
    simp [hg, hd, controlPosts]

theorem controlPosts_threadLogger (c : ScriptCtx) (n : String) (lv : LogLevel) (m : String) :
    controlPosts (threadLogger c.toWorkerCtx n lv m).fst =
      if workerGuard c then [ParentPortMessage.log c.threadId c.threadName (some n) lv m] else [] := by
  rw [threadLogger_script]
  by_cases hg : workerGuard c = true <;> by_cases hd : c.debug = true <;>
    simp [hg, hd, controlPosts]

theorem countP_errorLocal_threadLogger (c : ScriptCtx) (n : String) (lv : LogLevel) (m : String) :
    (threadLogger c.toWorkerCtx n lv m).fst.countP Event.isErrorLocalLog
      = if lv = LogLevel.error then 1 else 0 := by
  rw [threadLogger_script]
  by_cases hg : workerGuard c = true <;> by_cases hd : c.debug = true <;> cases lv <;>
    simp [hg, hd, Event.isErrorLocalLog, List.countP_cons]

/-! ## Task sections of the three scripts -/

theorem cuTaskSec_snd (c : ScriptCtx) (t : CuTask) : (cuTaskSec c t).snd = none := by
  unfold cuTaskSec
  cases cuResult t with
  | error e => exact threadLogger_script_snd c cuName LogLevel.error _
  | ok u => exact threadLogger_script_snd c cuName LogLevel.info _

theorem cuTaskSec_members (c : ScriptCtx) (t : CuTask) :
    ∀ e ∈ (cuTaskSec c t).fst, taskEvent e = true := by
  unfold cuTaskSec
  cases cuResult t with
  | error e => exact threadLogger_members c cuName LogLevel.error _
  | ok u => exact threadLogger_members c cuName LogLevel.info _

theorem wgpTaskSec_snd (c : ScriptCtx) (t : Except String String) : (wgpTaskSec c t).snd = none := by
  unfold wgpTaskSec
  cases t with
  | error e => exact threadLogger_script_snd c wgpName LogLevel.error _
  | ok pfx => exact seqM_snd_none rfl (threadLogger_script_snd c wgpName LogLevel.info _)

theorem wgpTaskSec_members (c : ScriptCtx) (t : Except String String) :
    ∀ e ∈ (wgpTaskSec c t).fst, taskEvent e = true := by
  unfold wgpTaskSec
  cases t with
  | error e => exact threadLogger_members c wgpName LogLevel.error _
  | ok pfx =>
    apply seqM_members
    · intro e he
      simp [emitE] at he
      subst he
      rfl
    · exact threadLogger_members c wgpName LogLevel.info _

theorem scLog_snd (c : ScriptCtx) (lv : LogLevel) (m : String) : (scLog c lv m).snd = none :=
  threadLogger_script_snd c scName lv m

theorem scLog_members (c : ScriptCtx) (lv : LogLevel) (m : String) :
    ∀ e ∈ (scLog c lv m).fst, taskEvent e = true :=
  threadLogger_members c scName lv m

theorem scBody_snd (c : ScriptCtx) (env : ScEnv) : (scBody c env).snd = none := by
  unfold scBody
  apply seqAll_snd_none
  intro x hx
  simp only [List.mem_cons, List.not_mem_nil, or_false] at hx
  rcases hx with rfl | rfl | rfl | rfl | rfl | rfl | rfl | rfl | rfl | rfl | rfl | rfl <;>
    first
      | exact scLog_snd _ _ _
      | exact condE_snd (scLog_snd _ _ _)
      | (apply seqAll_snd_none
         intro y hy
         rcases List.mem_map.mp hy with ⟨i, hi, rfl⟩
         exact condE_snd (scLog_snd _ _ _))

theorem scBody_members (c : ScriptCtx) (env : ScEnv) :
    ∀ e ∈ (scBody c env).fst, taskEvent e = true := by
  unfold scBody
  apply seqAll_members
  intro x hx
  simp only [List.mem_cons, List.not_mem_nil, or_false] at hx
  rcases hx with rfl | rfl | rfl | rfl | rfl | rfl | rfl | rfl | rfl | rfl | rfl | rfl <;>
    first
      | exact scLog_members _ _ _
      | exact condE_members (scLog_members _ _ _)
      | (apply seqAll_members
         intro y hy
         rcases List.mem_map.mp hy with ⟨i, hi, rfl⟩
         exact condE_members (scLog_members _ _ _))

theorem scTaskSec_snd (c : ScriptCtx) (t : Except String ScEnv) : (scTaskSec c t).snd = none := by
  unfold scTaskSec
  cases t with
  | error e => exact scLog_snd c LogLevel.error _
  | ok env => exact scBody_snd c env

theorem scTaskSec_members (c : ScriptCtx) (t : Except String ScEnv) :
    ∀ e ∈ (scTaskSec c t).fst, taskEvent e = true := by
  unfold scTaskSec
  cases t with
  | error e => exact scLog_members c LogLevel.error _
  | ok env => exact scBody_members c env

/-! ## Run-level protocol lemmas, generic in the task section -/

theorem run_controlPosts (c : ScriptCtx) (nm sm : String) (task : Effects) (ok : Bool)
    (ht : task.snd = none) :
    controlPosts (workerScriptRun c nm sm task ok).fst =
      (if workerGuard c then
        ParentPortMessage.init c.threadId c.threadName true ::
          (if c.debug then
            [ParentPortMessage.log c.threadId c.threadName (some nm) LogLevel.info (initText c)]
          else [])
       else []) ++
      (if workerGuard c then [ParentPortMessage.log c.threadId c.threadName (some nm) LogLevel.info sm] else []) ++
      controlPosts task.fst ++
      (if workerGuard c then
        ParentPortMessage.exit c.threadId c.threadName ok ::
          (if c.debug then
            [ParentPortMessage.log c.threadId c.threadName (some nm) LogLevel.info (exitText c ok)]
          else [])
       else []) := by
  rw [workerScriptRun_eq c nm sm task ok ht]
  have hv : controlPosts (if c.verbose then [Event.workerInfo] else []) = [] := by
    by_cases h : c.verbose = true <;> simp [h, controlPosts]
  simp only [controlPosts_append, hv, controlPosts_scriptInitSec, controlPosts_threadLogger,
    controlPosts_scriptExitSec]
  simp [controlPosts, List.append_assoc]

theorem run_snd_none (c : ScriptCtx) (nm sm : String) (task : Effects) (ok : Bool)
    (ht : task.snd = none) : (workerScriptRun c nm sm task ok).snd = none := by
  rw [workerScriptRun_eq c nm sm task ok ht]

theorem run_countP_isInit (c : ScriptCtx) (nm sm : String) (task : Effects) (ok : Bool)
    (ht : task.snd = none) (htm : ∀ e ∈ task.fst, taskEvent e = true) :
    (controlPosts (workerScriptRun c nm sm task ok).fst).countP ParentPortMessage.isInit
      = if workerGuard c then 1 else 0 := by
  rw [run_controlPosts c nm sm task ok ht]
  have htask : (controlPosts task.fst).countP ParentPortMessage.isInit = 0 :=
    countP_zero_of_all _ ParentPortMessage.isLog _ (taskPosts_isLog task.fst htm) isLog_not_init
  by_cases hg : workerGuard c = true <;> by_cases hd : c.debug = true <;>
    simp [hg, hd, List.countP_append, List.countP_cons, htask, ParentPortMessage.isInit]

theorem run_countP_isExit (c : ScriptCtx) (nm sm : String) (task : Effects) (ok : Bool)
    (ht : task.snd = none) (htm : ∀ e ∈ task.fst, taskEvent e = true) :
    (controlPosts (workerScriptRun c nm sm task ok).fst).countP ParentPortMessage.isExit
      = if workerGuard c then 1 else 0 := by
  rw [run_controlPosts c nm sm task ok ht]
  have htask : (controlPosts task.fst).countP ParentPortMessage.isExit = 0 :=
    countP_zero_of_all _ ParentPortMessage.isLog _ (taskPosts_isLog task.fst htm) isLog_not_exit
  by_cases hg : workerGuard c = true <;> by_cases hd : c.debug = true <;>
    simp [hg, hd, List.countP_append, List.countP_cons, htask, ParentPortMessage.isExit]

theorem run_InitProtocol (c : ScriptCtx) (nm sm : String) (task : Effects) (ok : Bool)
    (ht : task.snd = none) (htm : ∀ e ∈ task.fst, taskEvent e = true) :
    InitProtocol (workerScriptRun c nm sm task ok) c := by
  refine ⟨run_snd_none c nm sm task ok ht, run_countP_isInit c nm sm task ok ht htm, ?_⟩
  intro hg
  rw [workerScriptRun_eq c nm sm task ok ht]
  rw [show ((scriptInitSec c nm).fst ++ [Event.busOpen] ++
      (if c.verbose then [Event.workerInfo] else []) ++
      (threadLogger c.toWorkerCtx nm LogLevel.info sm).fst ++ task.fst ++ [Event.busClose] ++
      (scriptExitSec c nm ok).fst, (none : Option JsError)).fst
      = (scriptInitSec c nm).fst ++ ([Event.busOpen] ++
        ((if c.verbose then [Event.workerInfo] else []) ++
        ((threadLogger c.toWorkerCtx nm LogLevel.info sm).fst ++ (task.fst ++ ([Event.busClose] ++
        (scriptExitSec c nm ok).fst))))) from by simp [List.append_assoc]]
  rw [scriptInitSec_eq]
  by_cases hd : c.debug = true <;> simp [hg, hd]

theorem run_FailureProtocol (c : ScriptCtx) (nm sm : String) (task : Effects)
    (ht : task.snd = none) (htm : ∀ e ∈ task.fst, taskEvent e = true)
    (herr : task.fst.countP Event.isErrorLocalLog = 1) :
    FailureProtocol (workerScriptRun c nm sm task false) c := by
  refine ⟨run_snd_none c nm sm task false ht, ?_, ?_⟩
  · rw [workerScriptRun_eq c nm sm task false ht]
    have h1 : (scriptInitSec c nm).fst.countP Event.isErrorLocalLog = 0 :=
      countP_zero_of_all _ postOrDebug _ (scriptInitSec_members c nm) postOrDebug_not_errorLocal
    have h7 : (scriptExitSec c nm false).fst.countP Event.isErrorLocalLog = 0 :=
      countP_zero_of_all _ postOrDebug _ (scriptExitSec_members c nm false) postOrDebug_not_errorLocal
    have h4 : (threadLogger c.toWorkerCtx nm LogLevel.info sm).fst.countP Event.isErrorLocalLog = 0 := by
      rw [countP_errorLocal_threadLogger]
      simp
    have hv : (if c.verbose then [Event.workerInfo] else []).countP Event.isErrorLocalLog = 0 := by
      by_cases h : c.verbose = true <;> simp [h, Event.isErrorLocalLog]
    simp [List.countP_append, h1, h4, h7, hv, herr, List.countP_cons, Event.isErrorLocalLog]
  · unfold exitPosts
    rw [run_controlPosts c nm sm task false ht]
    have htaskf : (controlPosts task.fst).filter ParentPortMessage.isExit = [] := by
      rw [List.filter_eq_nil_iff]
      intro m hm
      simp [isLog_not_exit m (taskPosts_isLog task.fst htm m hm)]
    by_cases hg : workerGuard c = true <;> by_cases hd : c.debug = true <;>
      simp [hg, hd, List.filter_append, htaskf, ParentPortMessage.isExit]

theorem scriptInitSec_noExitPost (c : ScriptCtx) (nm : String) :
    ∀ e ∈ (scriptInitSec c nm).fst, e.isExitPost = false := by
  rw [scriptInitSec_eq]
  by_cases hg : workerGuard c = true <;> by_cases hd : c.debug = true <;>
    simp [hg, hd, Event.isExitPost]

theorem pastExit_concat (front tail : List ParentPortMessage) (e : ParentPortMessage)
    (hf : ∀ m ∈ front, (!m.isExit) = true) (he : e.isExit = true) :
    pastExit (front ++ e :: tail) = tail := by
  unfold pastExit
  rw [dropWhile_append_all _ front _ hf, List.dropWhile_cons_of_neg (by simp [he])]
  rfl

theorem pastExit_all (l : List ParentPortMessage) (hf : ∀ m ∈ l, (!m.isExit) = true) :
    pastExit l = [] := by
  have h2 := dropWhile_append_all (fun m => !m.isExit) l [] hf
  rw [List.append_nil] at h2
  unfold pastExit
  rw [h2]
  rfl

theorem run_drop1_noInit (c : ScriptCtx) (nm sm : String) (task : Effects) (ok : Bool)
    (ht : task.snd = none) (htm : ∀ e ∈ task.fst, taskEvent e = true) :
    ∀ m ∈ (controlPosts (workerScriptRun c nm sm task ok).fst).drop 1, m.isInit = false := by
  rw [run_controlPosts c nm sm task ok ht]
  have htaskL : ∀ m ∈ controlPosts task.fst, m.isInit = false :=
    fun m hm => isLog_not_init m (taskPosts_isLog task.fst htm m hm)
  by_cases hg : workerGuard c = true
  · by_cases hd : c.debug = true
    · simp only [hg, hd, if_true, if_false, Bool.false_eq_true, List.nil_append,
        List.cons_append, List.append_assoc, List.singleton_append, List.drop_one,
        List.tail_cons]
      intro m hm
      simp only [List.mem_cons, List.mem_append, List.not_mem_nil, or_false] at hm
      rcases hm with rfl | rfl | hm | rfl | rfl
      · rfl
      · rfl
      · exact htaskL m hm
      · rfl
      · rfl
    · simp only [hg, hd, if_true, if_false, Bool.false_eq_true, List.nil_append,
        List.cons_append, List.append_assoc, List.singleton_append, List.drop_one,
        List.tail_cons]
      intro m hm
      simp only [List.mem_cons, List.mem_append, List.not_mem_nil, or_false] at hm
      rcases hm with rfl | hm | rfl
      · rfl
      · exact htaskL m hm
      · rfl
  · simp only [hg, if_true, if_false, Bool.false_eq_true, List.nil_append, List.append_nil]
    intro m hm
    exact htaskL m (List.drop_subset 1 _ hm)

theorem pastExit_concat_exit (front tail : List ParentPortMessage) (tid : Nat) (tn : String)
    (okv : Bool) (hf : ∀ m ∈ front, (!m.isExit) = true) :
    pastExit (front ++ ParentPortMessage.exit tid tn okv :: tail) = tail :=
  pastExit_concat front tail _ hf rfl

theorem run_pastExit (c : ScriptCtx) (nm sm : String) (task : Effects) (ok : Bool)
    (ht : task.snd = none) (htm : ∀ e ∈ task.fst, taskEvent e = true) :
    pastExit (controlPosts (workerScriptRun c nm sm task ok).fst) =
      (if workerGuard c && c.debug then
        [ParentPortMessage.log c.threadId c.threadName (some nm) LogLevel.info (exitText c ok)]
      else []) := by
  rw [run_controlPosts c nm sm task ok ht]
  have htaskNE : ∀ m ∈ controlPosts task.fst, (!m.isExit) = true := by
    intro m hm
    simp [isLog_not_exit m (taskPosts_isLog task.fst htm m hm)]
  by_cases hg : workerGuard c = true
  · by_cases hd : c.debug = true
    · simp only [hg, hd, if_true, if_false, Bool.false_eq_true, List.nil_append, Bool.true_and]
      rw [pastExit_concat_exit]
      intro m hm
      simp only [List.mem_cons, List.mem_append, List.not_mem_nil, or_false] at hm
      rcases hm with ((rfl | rfl) | rfl) | hm
      · rfl
      · rfl
      · rfl
      · exact htaskNE m hm
    · simp only [hg, hd, if_true, if_false, Bool.false_eq_true, List.nil_append, Bool.true_and]
      rw [pastExit_concat_exit]
      intro m hm
      simp only [List.mem_cons, List.mem_append, List.not_mem_nil, or_false] at hm
      rcases hm with (rfl | rfl) | hm
      · rfl
      · rfl
      · exact htaskNE m hm
  · have hg2 : workerGuard c = false := by simpa using hg
    simp only [hg2, Bool.false_eq_true, if_false, List.nil_append, List.append_nil,
      Bool.false_and]
    exact pastExit_all _ htaskNE

theorem run_ControlSequenceOk (c : ScriptCtx) (nm sm : String) (task : Effects) (ok : Bool)
    (ht : task.snd = none) (htm : ∀ e ∈ task.fst, taskEvent e = true) :
    ControlSequenceOk (workerScriptRun c nm sm task ok) c nm ok :=
  ⟨run_countP_isInit c nm sm task ok ht htm,
   run_drop1_noInit c nm sm task ok ht htm,
   run_countP_isExit c nm sm task ok ht htm,
   run_pastExit c nm sm task ok ht htm⟩

theorem run_untilClose (c : ScriptCtx) (nm sm : String) (task : Effects) (ok : Bool)
    (ht : task.snd = none) (htm : ∀ e ∈ task.fst, taskEvent e = true) :
    untilClose (workerScriptRun c nm sm task ok).fst =
      (scriptInitSec c nm).fst ++ [Event.busOpen] ++
      (if c.verbose then [Event.workerInfo] else []) ++
      (threadLogger c.toWorkerCtx nm LogLevel.info sm).fst ++ task.fst := by
  rw [workerScriptRun_eq c nm sm task ok ht]
  have hA : ∀ e ∈ (scriptInitSec c nm).fst, (!isBusCloseE e) = true := by
    intro e he
    simp [(postOrDebug_not_bus e (scriptInitSec_members c nm e he)).2]
  have hV : ∀ e ∈ (if c.verbose then [Event.workerInfo] else []), (!isBusCloseE e) = true := by
    by_cases hv : c.verbose = true <;> simp [hv, isBusCloseE]
  have hS : ∀ e ∈ (threadLogger c.toWorkerCtx nm LogLevel.info sm).fst, (!isBusCloseE e) = true := by
    intro e he
    simp [(taskEvent_not_bus e (threadLogger_members c nm LogLevel.info sm e he)).2]
  have hT : ∀ e ∈ task.fst, (!isBusCloseE e) = true := by
    intro e he
    simp [(taskEvent_not_bus e (htm e he)).2]
  unfold untilClose
  dsimp only
  simp only [List.append_assoc, List.singleton_append, List.cons_append, List.nil_append]
  rw [takeWhile_append_all _ _ _ hA, List.takeWhile_cons_of_pos (by simp [isBusCloseE]),
    takeWhile_append_all _ _ _ hV, takeWhile_append_all _ _ _ hS,
    takeWhile_append_all _ _ _ hT, List.takeWhile_cons_of_neg (by simp [isBusCloseE])]
  simp [List.append_assoc]

theorem run_pastClose (c : ScriptCtx) (nm sm : String) (task : Effects) (ok : Bool)
    (ht : task.snd = none) (htm : ∀ e ∈ task.fst, taskEvent e = true) :
    pastClose (workerScriptRun c nm sm task ok).fst = (scriptExitSec c nm ok).fst := by
  rw [workerScriptRun_eq c nm sm task ok ht]
  have hA : ∀ e ∈ (scriptInitSec c nm).fst, (!isBusCloseE e) = true := by
    intro e he
    simp [(postOrDebug_not_bus e (scriptInitSec_members c nm e he)).2]
  have hV : ∀ e ∈ (if c.verbose then [Event.workerInfo] else []), (!isBusCloseE e) = true := by
    by_cases hv : c.verbose = true <;> simp [hv, isBusCloseE]
  have hS : ∀ e ∈ (threadLogger c.toWorkerCtx nm LogLevel.info sm).fst, (!isBusCloseE e) = true := by
    intro e he
    simp [(taskEvent_not_bus e (threadLogger_members c nm LogLevel.info sm e he)).2]
  have hT : ∀ e ∈ task.fst, (!isBusCloseE e) = true := by
    intro e he
    simp [(taskEvent_not_bus e (htm e he)).2]
  unfold pastClose
  dsimp only
  simp only [List.append_assoc, List.singleton_append, List.cons_append, List.nil_append]
  rw [dropWhile_append_all _ _ _ hA, List.dropWhile_cons_of_pos (by simp [isBusCloseE]),
    dropWhile_append_all _ _ _ hV, dropWhile_append_all _ _ _ hS,
    dropWhile_append_all _ _ _ hT, List.dropWhile_cons_of_neg (by simp [isBusCloseE])]
  rfl

theorem run_untilOpen (c : ScriptCtx) (nm sm : String) (task : Effects) (ok : Bool)
    (ht : task.snd = none) :
    untilOpen (workerScriptRun c nm sm task ok).fst = (scriptInitSec c nm).fst := by
  rw [workerScriptRun_eq c nm sm task ok ht]
  have hA : ∀ e ∈ (scriptInitSec c nm).fst, (!isBusOpenE e) = true := by
    intro e he
    simp [(postOrDebug_not_bus e (scriptInitSec_members c nm e he)).1]
  unfold untilOpen
  dsimp only
  simp only [List.append_assoc, List.singleton_append, List.cons_append, List.nil_append]
  rw [takeWhile_append_all _ _ _ hA, List.takeWhile_cons_of_neg (by simp [isBusOpenE])]
  simp

theorem run_CloseProtocol (c : ScriptCtx) (nm sm : String) (task : Effects) (ok : Bool)
    (ht : task.snd = none) (htm : ∀ e ∈ task.fst, taskEvent e = true) :
    CloseProtocol (workerScriptRun c nm sm task ok) := by
  have hAm := scriptInitSec_members c nm
  have hXm := scriptExitSec_members c nm ok
  have hSm := threadLogger_members c nm LogLevel.info sm
  have hAc : (scriptInitSec c nm).fst.countP isBusCloseE = 0 :=
    countP_zero_of_all _ postOrDebug _ hAm (fun e he => (postOrDebug_not_bus e he).2)
  have hAo : (scriptInitSec c nm).fst.countP isBusOpenE = 0 :=
    countP_zero_of_all _ postOrDebug _ hAm (fun e he => (postOrDebug_not_bus e he).1)
  have hXc : (scriptExitSec c nm ok).fst.countP isBusCloseE = 0 :=
    countP_zero_of_all _ postOrDebug _ hXm (fun e he => (postOrDebug_not_bus e he).2)
  have hXo : (scriptExitSec c nm ok).fst.countP isBusOpenE = 0 :=
    countP_zero_of_all _ postOrDebug _ hXm (fun e he => (postOrDebug_not_bus e he).1)
  have hSc : (threadLogger c.toWorkerCtx nm LogLevel.info sm).fst.countP isBusCloseE = 0 :=
    countP_zero_of_all _ taskEvent _ hSm (fun e he => (taskEvent_not_bus e he).2)
  have hSo : (threadLogger c.toWorkerCtx nm LogLevel.info sm).fst.countP isBusOpenE = 0 :=
    countP_zero_of_all _ taskEvent _ hSm (fun e he => (taskEvent_not_bus e he).1)
  have hTc : task.fst.countP isBusCloseE = 0 :=
    countP_zero_of_all _ taskEvent _ htm (fun e he => (taskEvent_not_bus e he).2)
  have hTo : task.fst.countP isBusOpenE = 0 :=
    countP_zero_of_all _ taskEvent _ htm (fun e he => (taskEvent_not_bus e he).1)
  have hVc : (if c.verbose then [Event.workerInfo] else []).countP isBusCloseE = 0 := by
    by_cases hv : c.verbose = true <;> simp [hv, isBusCloseE]
  have hVo : (if c.verbose then [Event.workerInfo] else []).countP isBusOpenE = 0 := by
    by_cases hv : c.verbose = true <;> simp [hv, isBusOpenE]
  refine ⟨?_, ?_, ?_, ?_, ?_, ?_⟩
  · rw [workerScriptRun_eq c nm sm task ok ht]
    simp [List.countP_append, hAc, hVc, hSc, hTc, hXc, List.countP_cons, isBusCloseE]
  · rw [workerScriptRun_eq c nm sm task ok ht]
    simp [List.countP_append, hAo, hVo, hSo, hTo, hXo, List.countP_cons, isBusOpenE]
  · rw [run_untilClose c nm sm task ok ht htm]
    simp [List.countP_append, hAo, hVo, hSo, hTo, List.countP_cons, isBusOpenE]
  · rw [run_untilClose c nm sm task ok ht htm]
    intro e he
    rcases List.mem_append.mp he with h | h
    · rcases List.mem_append.mp h with h2 | h2
      · rcases List.mem_append.mp h2 with h3 | h3
        · rcases List.mem_append.mp h3 with h4 | h4
          · exact scriptInitSec_noExitPost c nm e h4
          · simp only [List.mem_singleton] at h4
            subst h4
            rfl
        · by_cases hv : c.verbose = true
          · rw [if_pos hv] at h3
            simp only [List.mem_singleton] at h3
            subst h3
            rfl
          · rw [if_neg hv] at h3
            simp at h3
      · exact taskEvent_not_exitPost e (hSm e h2)
    · exact taskEvent_not_exitPost e (htm e h)
  · rw [run_pastClose c nm sm task ok ht htm]
    intro e he
    exact hXm e he
  · rw [run_untilOpen c nm sm task ok ht]
    intro e he
    exact hAm e he

/-! ## The remaining claims -/

theorem cuTaskSec_errCount (c : ScriptCtx) (t : CuTask) (emsg : String)
    (hres : cuResult t = Except.error emsg) :
    (cuTaskSec c t).fst.countP Event.isErrorLocalLog = 1 := by
  unfold cuTaskSec
  rw [hres, countP_errorLocal_threadLogger]
  rfl

/-- C2: when the task body of a worker script throws (the shared-state
fetch, `checkUpdates`, or `getGlobalNodeModules` failing), the error is
caught locally — the module body completes without an escaping error —
exactly one error-level relay log call is made with the human-readable
inspected message, and (when a control-plane link exists) exactly one
`exit` control message with `success: false` is posted (and none without
a link). -/
theorem claim_C2_worker_failure (c : ScriptCtx) (emsg : String) :
    (∀ t : CuTask, cuResult t = Except.error emsg →
      FailureProtocol (workerCheckUpdatesRun c t) c) ∧
    FailureProtocol (wgpRun c (Except.error emsg)) c ∧
    FailureProtocol (workerSystemCheckRun c (Except.error emsg)) c := by
  refine ⟨?_, ?_, ?_⟩
  · intro t hres
    unfold workerCheckUpdatesRun
    rw [show exceptOk (cuResult t) = false from by rw [hres]; rfl]
    exact run_FailureProtocol c cuName "Starting check updates..." (cuTaskSec c t)
      (cuTaskSec_snd c t) (cuTaskSec_members c t) (cuTaskSec_errCount c t emsg hres)
  · unfold wgpRun
    exact run_FailureProtocol c wgpName "Starting global prefix check..."
      (wgpTaskSec c (Except.error emsg)) (wgpTaskSec_snd c _) (wgpTaskSec_members c _)
      (by unfold wgpTaskSec; rw [countP_errorLocal_threadLogger]; rfl)
  · unfold workerSystemCheckRun
    exact run_FailureProtocol c scName "Starting system check..."
      (scTaskSec c (Except.error emsg)) (scTaskSec_snd c _) (scTaskSec_members c _)
      (by unfold scTaskSec scLog; rw [countP_errorLocal_threadLogger]; rfl)

theorem claim_C2_worker_failure_witness :
    FailureProtocol (workerCheckUpdatesRun scriptCtx0 cuTaskFail) scriptCtx0 ∧
    FailureProtocol (wgpRun scriptCtx0 (Except.error "boom")) scriptCtx0 ∧
    FailureProtocol (workerSystemCheckRun scriptCtx0 (Except.error "boom")) scriptCtx0 :=
  ⟨(claim_C2_worker_failure scriptCtx0 "boom").1 cuTaskFail rfl,
   (claim_C2_worker_failure scriptCtx0 "boom").2.1,
   (claim_C2_worker_failure scriptCtx0 "boom").2.2⟩

/-- C3: each worker script posts an `init` control message carrying
`success: true`, immediately on start, if and only if it runs off the main
thread with a control-plane link present; on the main thread or without a
link it posts no `init` and the module body still completes without
throwing. -/
theorem claim_C3_init_handshake (c : ScriptCtx) (t1 : CuTask) (t2 : Except String String)
    (t3 : Except String ScEnv) :
    InitProtocol (workerCheckUpdatesRun c t1) c ∧
    InitProtocol (wgpRun c t2) c ∧
    InitProtocol (workerSystemCheckRun c t3) c := by
  refine ⟨?_, ?_, ?_⟩
  · unfold workerCheckUpdatesRun
    exact run_InitProtocol c cuName "Starting check updates..." (cuTaskSec c t1) _
      (cuTaskSec_snd c t1) (cuTaskSec_members c t1)
  · unfold wgpRun
    exact run_InitProtocol c wgpName "Starting global prefix check..." (wgpTaskSec c t2) _
      (wgpTaskSec_snd c t2) (wgpTaskSec_members c t2)
  · unfold workerSystemCheckRun
    exact run_InitProtocol c scName "Starting system check..." (scTaskSec c t3) _
      (scTaskSec_snd c t3) (scTaskSec_members c t3)

theorem claim_C3_init_handshake_witness :
    (InitProtocol (workerCheckUpdatesRun scriptCtxMain cuTaskOk) scriptCtxMain ∧
     InitProtocol (wgpRun scriptCtxMain (Except.ok "/usr/lib")) scriptCtxMain ∧
     InitProtocol (workerSystemCheckRun scriptCtxMain (Except.ok scEnv0)) scriptCtxMain) ∧
    (InitProtocol (workerCheckUpdatesRun scriptCtx0 cuTaskOk) scriptCtx0 ∧
     InitProtocol (wgpRun scriptCtx0 (Except.ok "/usr/lib")) scriptCtx0 ∧
     InitProtocol (workerSystemCheckRun scriptCtx0 (Except.ok scEnv0)) scriptCtx0) :=
  ⟨claim_C3_init_handshake scriptCtxMain cuTaskOk (Except.ok "/usr/lib") (Except.ok scEnv0),
   claim_C3_init_handshake scriptCtx0 cuTaskOk (Except.ok "/usr/lib") (Except.ok scEnv0)⟩

/-- C4 counterexample: with the debug flag set (and a link present), the
workerCheckUpdates script posts the debug-only `log` control message AFTER
its `exit` control message (workerCheckUpdates.ts:73-74), so `exit` is not
the last control message of the run even though it is posted exactly once. -/
theorem claim_C4_counterexample :
    noMsgAfterExit (controlPosts (workerCheckUpdatesRun scriptCtxDebug cuTaskOk).fst) = false ∧
    (controlPosts (workerCheckUpdatesRun scriptCtxDebug cuTaskOk).fst).countP
        ParentPortMessage.isExit = 1 := by
  constructor <;> rfl

/-- C4 (amended): for every worker-script execution, `init` is posted
exactly once when off-main-thread with a link (never otherwise) and only
as the first control message; `exit` is posted exactly once under the same
guard (never otherwise); and the only control message following `exit` is
the single debug-only "exiting" log line, present exactly when the debug
flag is set — with debug unset, `exit` is the last control message. -/
theorem claim_C4_control_sequence (c : ScriptCtx) (t1 : CuTask) (t2 : Except String String)
    (t3 : Except String ScEnv) :
    ControlSequenceOk (workerCheckUpdatesRun c t1) c cuName (exceptOk (cuResult t1)) ∧
    ControlSequenceOk (wgpRun c t2) c wgpName (exceptOk t2) ∧
    ControlSequenceOk (workerSystemCheckRun c t3) c scName (exceptOk t3) := by
  refine ⟨?_, ?_, ?_⟩
  · unfold workerCheckUpdatesRun
    exact run_ControlSequenceOk c cuName "Starting check updates..." (cuTaskSec c t1) _
      (cuTaskSec_snd c t1) (cuTaskSec_members c t1)
  · unfold wgpRun
    exact run_ControlSequenceOk c wgpName "Starting global prefix check..." (wgpTaskSec c t2) _
      (wgpTaskSec_snd c t2) (wgpTaskSec_members c t2)
  · unfold workerSystemCheckRun
    exact run_ControlSequenceOk c scName "Starting system check..." (scTaskSec c t3) _
      (scTaskSec_snd c t3) (scTaskSec_members c t3)

theorem claim_C4_control_sequence_witness :
    ControlSequenceOk (workerCheckUpdatesRun scriptCtxDebug cuTaskOk) scriptCtxDebug cuName
      (exceptOk (cuResult cuTaskOk)) ∧
    ControlSequenceOk (wgpRun scriptCtxDebug (Except.ok "/usr/lib")) scriptCtxDebug wgpName
      (exceptOk (Except.ok "/usr/lib" : Except String String)) ∧
    ControlSequenceOk (workerSystemCheckRun scriptCtxDebug (Except.ok scEnv0)) scriptCtxDebug scName
      (exceptOk (Except.ok scEnv0 : Except String ScEnv)) :=
  claim_C4_control_sequence scriptCtxDebug cuTaskOk (Except.ok "/usr/lib") (Except.ok scEnv0)

/-- C9: in every worker-script execution — including on the main thread
with no link — the broadcast-server subscription is closed exactly once,
after the whole task section and before any `exit` control message; it was
opened exactly once, after the init block and before the close; past the
close only the exit block's parent posts and debug lines occur, and before
the open only the init block's. -/
theorem claim_C9_close_exactly_once (c : ScriptCtx) (t1 : CuTask) (t2 : Except String String)
    (t3 : Except String ScEnv) :
    CloseProtocol (workerCheckUpdatesRun c t1) ∧
    CloseProtocol (wgpRun c t2) ∧
    CloseProtocol (workerSystemCheckRun c t3) := by
  refine ⟨?_, ?_, ?_⟩
  · unfold workerCheckUpdatesRun
    exact run_CloseProtocol c cuName "Starting check updates..." (cuTaskSec c t1) _
      (cuTaskSec_snd c t1) (cuTaskSec_members c t1)
  · unfold wgpRun
    exact run_CloseProtocol c wgpName "Starting global prefix check..." (wgpTaskSec c t2) _
      (wgpTaskSec_snd c t2) (wgpTaskSec_members c t2)
  · unfold workerSystemCheckRun
    exact run_CloseProtocol c scName "Starting system check..." (scTaskSec c t3) _
      (scTaskSec_snd c t3) (scTaskSec_members c t3)

theorem claim_C9_close_exactly_once_witness :
    CloseProtocol (workerCheckUpdatesRun scriptCtxMain cuTaskFail) ∧
    CloseProtocol (wgpRun scriptCtxMain (Except.error "boom")) ∧
    CloseProtocol (workerSystemCheckRun scriptCtxMain (Except.error "boom")) :=
  claim_C9_close_exactly_once scriptCtxMain cuTaskFail (Except.error "boom") (Except.error "boom")

end Matterbridge
